import Mathlib

/-!
Shallow embedding of the VSC API Python client
(`VscApiClient/__init__.py`, `VscApiClient/errors.py`) and proofs about
its endpoint-resolution and request/error-decoding layer.

Modelling conventions:
* Python strings are Lean `String`s; response bodies are strings of bytes.
* External collaborators (the `json` codec, `base64`, the actual socket
  transport, the `dns.resolver` library and the `ipaddr` literal-IP test)
  are passed in as explicit function parameters: the client code only
  observes their results.
* Python exceptions are modelled as values of `PyExn`; a function whose
  every Python path raises is modelled as returning the raised exception.
-/

namespace VscApi

/-- JSON values, as produced by the external `json` codec. -/
inductive Json where
  | null : Json
  | bool (b : Bool) : Json
  | num (n : Int) : Json
  | str (s : String) : Json
  | arr (elems : List Json) : Json
  | obj (fields : List (String × Json)) : Json

/-- Python exceptions that the client code can raise.

The typed classes come from `errors.py` (`NoAliveServersError`,
`NotAuthorizedError`, `NotFoundError`, `BadArgError`,
`InternalServerError`, `UnknownError`) plus the Python builtins the code
reaches (`NotImplementedError`, `NameError`, `ValueError`, `TypeError`).
`httpError` is a re-raised `urllib2.HTTPError`; `urlError` is a
transport-level `urllib2.URLError` (connect failure or timeout).

Note on name resolution: `__init__.py` does `from .errors import *`;
`errors.py` defines no class named `NotAuthenticatedError` and Python has
no such builtin, so the statement `raise NotAuthenticatedError` fails at
the name lookup itself and raises `NameError`. -/
inductive PyExn where
  | noAliveServersError : PyExn
  | notAuthorizedError (msg : Json) : PyExn
  | notFoundError : PyExn
  | badArgError (msg : Json) : PyExn
  | internalServerError : PyExn
  | unknownError : PyExn
  | notImplementedError : PyExn
  | nameError (missing : String) : PyExn
  | valueError : PyExn
  | typeError : PyExn
  | httpError (code : Nat) (headers : List (String × String)) (body : String) : PyExn
  | urlError (reason : String) : PyExn

/-- An HTTP error response as carried by a `urllib2.HTTPError`. -/
structure HttpErrorResponse where
  code : Nat
  headers : List (String × String)
  body : String

/-- A successful HTTP response as returned by `urllib2.urlopen`. -/
structure HttpResponse where
  code : Nat
  headers : List (String × String)
  body : String

/-- Re-raise an `HTTPError` unchanged. -/
def raiseHttp (e : HttpErrorResponse) : PyExn :=
  PyExn.httpError e.code e.headers e.body

/-- Lower-case a string character by character. -/
def lowerStr (s : String) : String :=
  String.mk (s.toList.map Char.toLower)

/-- Models `headers.get(name)` on an `rfc822.Message`: case-insensitive header
lookup, `None` when absent. -/
def headerGet (hs : List (String × String)) (name : String) : Option String :=
  (hs.find? (fun kv => lowerStr kv.1 = lowerStr name)).map (fun kv => kv.2)

/-- Models `headers.get(name, dflt)`: case-insensitive lookup with a default. -/
def headerGetD (hs : List (String × String)) (name dflt : String) : String :=
  (headerGet hs name).getD dflt

/-- Digits of a decimal literal to a number; `none` when empty or when a
non-digit occurs. -/
def digitsToNat (cs : List Char) : Option Nat :=
  match cs with
  | [] => none
  | _ => cs.foldl
      (fun acc c => acc.bind (fun n =>
        if c.isDigit then some (10 * n + (c.toNat - 48)) else none))
      (some 0)

/-- Models Python `int(s)` on a string: optional surrounding spaces,
optional sign, one or more decimal digits; `none` models the
`ValueError` raised otherwise. -/
def pyInt (s : String) : Option Int :=
  let cs := ((s.toList.dropWhile (fun c => c = ' ')).reverse.dropWhile
      (fun c => c = ' ')).reverse
  match cs with
  | '-' :: rest => (digitsToNat rest).map (fun n => -(n : Int))
  | '+' :: rest => (digitsToNat rest).map (fun n => (n : Int))
  | _ => (digitsToNat cs).map (fun n => (n : Int))

/-- Models `fileobj.read(n)`: at most `n` bytes of the remaining body. -/
def pyRead (body : String) (n : Nat) : String :=
  String.mk (body.toList.take n)

/-- Models `s.strip(c)`: remove occurrences of `c` from both ends. -/
def pyStrip (s : String) (c : Char) : String :=
  String.mk (((s.toList.dropWhile (fun x => x = c)).reverse.dropWhile
      (fun x => x = c)).reverse)

/-- Python subscript `entity[k]` under a `try`: the value at string key
`k` when `entity` is a dict that has it, `none` when the subscript would
raise (`KeyError` / `TypeError`), which the caller's `except` turns into
a re-raise. -/
def jGet (j : Json) (k : String) : Option Json :=
  match j with
  | Json.obj kvs => (kvs.find? (fun kv => kv.1 = k)).map (fun kv => kv.2)
  | _ => none

/-- Model of `_decodeErrorResponse` (`__init__.py` lines 887-936): decode an HTTP
error response and raise the appropriate exception.

`jsonLoads` is the external `json.loads`; `none` models its parse
exception. Line-by-line correspondence:
* 898-905: the `401 / 500 / 501 / 404` chain. At 401 the raised name
  `NotAuthenticatedError` is undefined (see `PyExn`), so the statement
  raises `NameError`.
* 907-912: `error_classes_map` only has key 403, so any other remaining
  status re-raises the original error.
* 914: `int(headers.get('Content-Length', '0'))`; a non-numeric value
  makes `int` raise `ValueError`.
* 916-918: wrong content type or non-positive length re-raises.
* 919-922: read `content_length` bytes; length mismatch re-raises.
* 923-930: `json.loads` and the two subscripts, any failure re-raises.
* 932-936: `classes.get(error_class)`: an unhashable key (JSON array or
  object) raises `TypeError`; an unrecognized hashable key gives `None`
  and re-raises; otherwise the mapped class is raised with the message. -/
def _decodeErrorResponse (jsonLoads : String → Option Json)
    (e : HttpErrorResponse) : PyExn :=
  if e.code = 401 then PyExn.nameError "NotAuthenticatedError"
  else if e.code = 500 then PyExn.internalServerError
  else if e.code = 501 then PyExn.notImplementedError
  else if e.code = 404 then PyExn.notFoundError
  else if e.code ≠ 403 then raiseHttp e
  else
    match pyInt (headerGetD e.headers "Content-Length" "0") with
    | none => PyExn.valueError
    | some contentLength =>
      if headerGet e.headers "Content-Type" ≠ some "application/json"
          ∨ contentLength ≤ 0 then raiseHttp e
      else
        let encodedEntity := pyRead e.body contentLength.toNat
        if (encodedEntity.length : Int) ≠ contentLength then raiseHttp e
        else
          match (jsonLoads encodedEntity).bind (fun entity =>
              (jGet entity "error_class").bind (fun ec =>
                (jGet entity "error_message").map (fun em => (ec, em)))) with
          | none => raiseHttp e
          | some (errorClass, errorMessage) =>
            match errorClass with
            | Json.str s =>
              if s = "access_denied" then PyExn.notAuthorizedError errorMessage
              else if s = "bad_argument" then PyExn.badArgError errorMessage
              else raiseHttp e
            | Json.arr _ => PyExn.typeError
            | Json.obj _ => PyExn.typeError
            | _ => raiseHttp e

/-- Whether an exception is one of the specific typed failures of the
spec's error taxonomy (§7): NotAuthenticated has no corresponding class
in the code, the remaining typed kinds map to the `errors.py` classes
plus the builtin `NotImplementedError` used for 501. -/
def isTypedTaxonomyFailure : PyExn → Bool
  | PyExn.noAliveServersError => true
  | PyExn.notAuthorizedError _ => true
  | PyExn.notFoundError => true
  | PyExn.badArgError _ => true
  | PyExn.internalServerError => true
  | PyExn.unknownError => true
  | PyExn.notImplementedError => true
  | _ => false

/-- Local constants of `__init__.py` (lines 19-22). `SRV_PREFIX` is
rendered as `srvPrefixVal`. -/
def DEFAULT_HOSTNAME : String := "api.vsc.com"

/-- Default TCP port (line 20). -/
def DEFAULT_TCP_PORT : Nat := 8914

/-- Default request timeout in seconds (line 21). -/
def DEFAULT_TIMEOUT : Nat := 5

/-- The DNS SRV name prefix constant of line 22. -/
def srvPrefixVal : String := "_vsc-api-server._tcp."

/-- The result of `dns.resolver.query(srvname, 'srv')`: a list of
records (target text as written in DNS, port), the authoritative
`NXDOMAIN` exception, or some other resolver failure (timeout, server
failure, `NoAnswer`, ...) that the client code does not catch. -/
inductive DnsResult where
  | records (rs : List (String × Nat)) : DnsResult
  | nxdomain : DnsResult
  | failure (reason : String) : DnsResult

/-- The SRV name queried by `_resolve` (lines 949-952). -/
def srvName (hostname : String) : String :=
  if hostname.startsWith srvPrefixVal then hostname
  else srvPrefixVal ++ hostname

/-- Model of `_resolve` (lines 939-962): resolve a DNS name to endpoint
addresses. `dnsQuery` is the external `dns.resolver.query` applied to
the SRV name. On records, one candidate per record with the target text
stripped of trailing dots; on `NXDOMAIN`, fall back to the plain name
with the explicit port or the default; any other resolver failure
propagates uncaught. -/
def _resolve (dnsQuery : String → DnsResult) (hostname : String)
    (port : Option Nat) : Except String (List (String × Nat)) :=
  match dnsQuery (srvName hostname) with
  | DnsResult.records rs =>
      Except.ok (rs.map (fun item => (pyStrip item.1 '.', item.2)))
  | DnsResult.nxdomain =>
      match port with
      | some p => Except.ok [(hostname, p)]
      | none => Except.ok [(hostname, DEFAULT_TCP_PORT)]
  | DnsResult.failure reason => Except.error reason

/-- The mutable state of a `VscApiClient` instance (lines 30-35). -/
structure ClientState where
  addrs : List (String × Nat)
  secure : Bool
  username : Option String
  password : Option String
  user_id : Option String
  timeout : Nat

/-- Model of `setEndPoint` (lines 62-80). `isIPLiteral` is the external
`ipaddr.IPAddress` literal-IP test (`true` when construction succeeds,
v4 or v6); when it succeeds the candidate list is a single
`(hostname, port-or-default)` pair and `_resolve` is not consulted;
otherwise the candidates come from `_resolve`, whose uncaught resolver
failure propagates. -/
def setEndPoint (isIPLiteral : String → Bool) (dnsQuery : String → DnsResult)
    (st : ClientState) (hostname : Option String) (port : Option Nat) :
    Except String ClientState :=
  let hostname := hostname.getD DEFAULT_HOSTNAME
  if isIPLiteral hostname then
    match port with
    | some p => Except.ok { st with addrs := [(hostname, p)] }
    | none => Except.ok { st with addrs := [(hostname, DEFAULT_TCP_PORT)] }
  else
    (_resolve dnsQuery hostname port).map
      (fun a => { st with addrs := a })

/-- Model of `setAuth` (lines 82-94): store the new credentials; the cached user
id is dropped first when the username changes. -/
def setAuth (st : ClientState) (username password : Option String) :
    ClientState :=
  let st1 := if username ≠ st.username then { st with user_id := none } else st
  { st1 with username := username, password := password }

/-- Model of `dropAuth` (lines 96-102). -/
def dropAuth (st : ClientState) : ClientState :=
  { st with username := none, password := none, user_id := none }

/-- The `(method, path, params, data)` tuple a facade method passes to
`_request` (lines 840-853): `params` is the optional URL query dict,
`data` the optional JSON body value. -/
structure RequestSpec where
  method : String
  path : String
  params : Option (List (String × Json))
  data : Option Json

/-- The external pure collaborators of `_request`: the `json` codec and
`base64.b64encode`. -/
structure Codecs where
  jsonDumps : Json → String
  jsonLoads : String → Option Json
  b64encode : String → String

/-- The `urllib2.Request` assembled by `_request` (lines 855-873) just
before `urlopen`: `url` is `scheme://host:port/stripped-path` without
the query string, which is kept structured in `query` (its
`urllib.urlencode` serialization is external); `body` is the serialized
JSON entity attached with `add_data`. -/
structure BuiltRequest where
  method : String
  url : String
  query : Option (List (String × Json))
  headers : List (String × String)
  body : Option String

/-- The URL/header/body assembly of `_request` (lines 855-873) for a
chosen endpoint `addr`: scheme from the `secure` flag, path stripped of
slashes, `User-Agent` always, `Authorization: Basic` exactly when both
username and password are set, and `Content-Type`/`Content-Length` plus
the JSON-serialized body exactly when `data` is not `None`. -/
def buildRequest (c : Codecs) (st : ClientState) (rs : RequestSpec)
    (addr : String × Nat) : BuiltRequest :=
  let scheme := if st.secure then "https" else "http"
  let url := scheme ++ "://" ++ addr.1 ++ ":" ++ toString addr.2 ++ "/"
      ++ pyStrip rs.path '/'
  let req0 : BuiltRequest :=
    { method := rs.method, url := url, query := rs.params,
      headers := [("User-Agent", "VscApiPythonClient")], body := none }
  let req1 :=
    match st.username, st.password with
    | some u, some p =>
        { req0 with headers := req0.headers ++
            [("Authorization", "Basic " ++ c.b64encode (u ++ ":" ++ p))] }
    | _, _ => req0
  match rs.data with
  | some d =>
      let body := c.jsonDumps d
      { req1 with
        headers := req1.headers ++
          [("Content-Type", "application/json"),
           ("Content-Length", toString body.length)],
        body := some body }
  | none => req1

/-- What `urllib2.urlopen(request, timeout)` did: a response, an
`HTTPError`, or a transport-level failure (connection failure or
timeout, i.e. a `urllib2.URLError` / socket error). -/
inductive TransportResult where
  | success (resp : HttpResponse) : TransportResult
  | httpErr (e : HttpErrorResponse) : TransportResult
  | connectFailure (reason : String) : TransportResult

/-- The outcome of one `_request` call: a returned JSON value, the
`None` return of the 204 path (the Python function falls off its end),
or a raised exception. -/
inductive ReqResult where
  | value (j : Json) : ReqResult
  | unit : ReqResult
  | exn (e : PyExn) : ReqResult

/-- Model of `_request` (lines 840-884). `choose` stands for `random.choice` on
the candidate list; `transport` for `urllib2.urlopen` with the bounded
timeout. Exactly one transport attempt is made; an `HTTPError` goes
through `_decodeErrorResponse` (which raises on every path); any other
transport failure is not caught (only `urllib2.HTTPError` is) and the
raw `URLError` propagates. On success the `X-VSC-User-ID` header, when
present, is cached into the state before the body is read; a 204
response returns `None`, any other body is `json.loads`-parsed (whose
parse failure — e.g. on an empty body — propagates as `ValueError`). -/
def _request (c : Codecs) (choose : List (String × Nat) → String × Nat)
    (transport : BuiltRequest → TransportResult)
    (st : ClientState) (rs : RequestSpec) : ClientState × ReqResult :=
  let req := buildRequest c st rs (choose st.addrs)
  match transport req with
  | TransportResult.httpErr e =>
      (st, ReqResult.exn (_decodeErrorResponse c.jsonLoads e))
  | TransportResult.connectFailure reason =>
      (st, ReqResult.exn (PyExn.urlError reason))
  | TransportResult.success resp =>
      let st1 :=
        match headerGet resp.headers "X-VSC-User-ID" with
        | some uid => { st with user_id := some uid }
        | none => st
      if resp.code ≠ 204 then
        match c.jsonLoads resp.body with
        | some j => (st1, ReqResult.value j)
        | none => (st1, ReqResult.exn PyExn.valueError)
      else (st1, ReqResult.unit)

/-- Model of `jobStop` (lines 417-442): the `(method, path, params, data)` tuple
it hands to `_request`. The entity dict always exists (possibly empty)
and is always passed as the body; the `save`/`force` flags always go as
query parameters; the verb is the custom `STOP`. -/
def jobStop (job_id : String) (save : Bool) (saved_description : Option String)
    (save_homefs : Bool) (force : Bool) : RequestSpec :=
  let entity : List (String × Json) :=
    (match saved_description with
     | some d => [("description", Json.str d)]
     | none => []) ++
    (if save_homefs then [("save_homefs", Json.num 1)] else [])
  { method := "STOP", path := "job/" ++ job_id,
    params := some [("save", Json.num (if save then 1 else 0)),
                    ("force", Json.num (if force then 1 else 0))],
    data := some (Json.obj entity) }

/-- Model of `jobAdd` (lines 381-397) with an explicit `job_id`: the request
tuple it hands to `_request` — a `PUT` carrying both the `create` query
parameter and the JSON body. -/
def jobAdd (job_id : String) (data : Json) : RequestSpec :=
  { method := "PUT", path := "job/" ++ job_id,
    params := some [("create", Json.num 1)], data := some data }

/-- The format check shared by `jobList`/`jobListAll`
(lines 463-464 and 498-499). -/
def validJobFormat (format : String) : Prop :=
  format = "basic" ∨ format = "full" ∨ format = "ids_only"

instance (format : String) : Decidable (validJobFormat format) := by
  unfold validJobFormat
  infer_instance

/-- Model of `jobListAll` (lines 474-505): the request tuple it issues — after
the format check, a `GET job` whose query carries `format`, `historic`
as `0/1`, and `user` exactly when a user id is given. (`historic` is a
Lean `Bool`, so the Python `isinstance(historic, bool)` guard is
statically satisfied.) -/
def jobListAllSpec (format : String) (historic : Bool)
    (user_id : Option String) : Except PyExn RequestSpec :=
  if ¬ validJobFormat format then
    Except.error (PyExn.badArgError (Json.str "Bad format value"))
  else
    let params := [("format", Json.str format),
                   ("historic", Json.num (if historic then 1 else 0))]
    let params :=
      match user_id with
      | some u => params ++ [("user", Json.str u)]
      | none => params
    Except.ok
      { method := "GET", path := "job", params := some params,
        data := none }

/-- Model of `jobList` (lines 444-472): the request tuple it issues — when the
cached user id is known it delegates to `jobListAll` with that id
("requesting directly"); otherwise it issues the `GET list_jobs`
redirection request. -/
def jobListSpec (st : ClientState) (format : String) (historic : Bool) :
    Except PyExn RequestSpec :=
  if ¬ validJobFormat format then
    Except.error (PyExn.badArgError (Json.str "Bad format value"))
  else
    match st.user_id with
    | some uid => jobListAllSpec format historic (some uid)
    | none =>
        Except.ok
          { method := "GET", path := "list_jobs",
            params := some [("format", Json.str format),
                            ("historic",
                             Json.num (if historic then 1 else 0))],
            data := none }

/-- Discriminator: does a request outcome consist of raising
`NoAliveServersError`? -/
def raisesNoAliveServers : ReqResult → Bool
  | ReqResult.exn PyExn.noAliveServersError => true
  | _ => false

/-- Discriminator: is an exception the given HTTP error re-raised
unchanged? -/
def isReRaisedOriginal (e : HttpErrorResponse) : PyExn → Bool
  | PyExn.httpError c hs b => c == e.code && hs == e.headers && b == e.body
  | _ => false

/-- C1: on a transport-level failure (connect failure or timeout),
`_request` does not fail with a `NoAliveServersError`-class failure:
only `urllib2.HTTPError` is caught, so the raw `URLError` propagates
unchanged, and `NoAliveServersError` is raised nowhere. (The claim's
no-fallback/no-retry half does hold: a single transport attempt is made
on one randomly chosen candidate.) Shown at a concrete request whose
transport times out. -/
theorem request_connect_failure_raises_raw_urlerror :
    (_request
        { jsonDumps := fun _ => "null", jsonLoads := fun _ => none,
          b64encode := fun s => s }
        (fun _ => ("10.0.0.1", 8914))
        (fun _ => TransportResult.connectFailure "connection timed out")
        { addrs := [("10.0.0.1", 8914)], secure := true, username := none,
          password := none, user_id := none, timeout := 5 }
        { method := "GET", path := "whoami", params := none,
          data := none }).2
      = ReqResult.exn (PyExn.urlError "connection timed out") ∧
    raisesNoAliveServers
      (_request
        { jsonDumps := fun _ => "null", jsonLoads := fun _ => none,
          b64encode := fun s => s }
        (fun _ => ("10.0.0.1", 8914))
        (fun _ => TransportResult.connectFailure "connection timed out")
        { addrs := [("10.0.0.1", 8914)], secure := true, username := none,
          password := none, user_id := none, timeout := 5 }
        { method := "GET", path := "whoami", params := none,
          data := none }).2
      = false :=
  ⟨rfl, rfl⟩

/-- C2: decoding an HTTP 401 error response does not produce a
`NotAuthenticated` typed failure: the statement `raise
NotAuthenticatedError` refers to a name that neither `errors.py` nor the
builtins define, so a `NameError` is raised instead — here shown on a
401 response that even carries a well-formed JSON body. -/
theorem decode_401_raises_nameerror :
    _decodeErrorResponse
        (fun _ => some (Json.obj [("error_class", Json.str "access_denied"),
                                  ("error_message", Json.str "m")]))
        { code := 401,
          headers := [("Content-Type", "application/json"),
                      ("Content-Length", "1")],
          body := "x" }
      = PyExn.nameError "NotAuthenticatedError" ∧
    isTypedTaxonomyFailure (PyExn.nameError "NotAuthenticatedError")
      = false :=
  ⟨rfl, rfl⟩

/-- C3: the every-error-maps-to-exactly-one-of-two-forms invariant fails
at status 401: there the decoder raises a `NameError` (the raised name
`NotAuthenticatedError` is undefined), which is neither a typed failure
of the error taxonomy nor the original HTTP error re-surfaced. -/
theorem decode_outcome_invariant_fails_at_401 :
    _decodeErrorResponse (fun _ => none)
        { code := 401, headers := [], body := "" }
      = PyExn.nameError "NotAuthenticatedError" ∧
    isTypedTaxonomyFailure
        (_decodeErrorResponse (fun _ => none)
          { code := 401, headers := [], body := "" })
      = false ∧
    isReRaisedOriginal { code := 401, headers := [], body := "" }
        (_decodeErrorResponse (fun _ => none)
          { code := 401, headers := [], body := "" })
      = false :=
  ⟨rfl, rfl, rfl⟩

/-- C4 counterexample: `jobStop` hands `_request` a `STOP` request that
carries a query-parameter payload and a JSON body at the same time, so
a request can carry both, and a JSON body is not restricted to
`POST`/`PUT`. (`jobAdd` likewise sends `PUT` with query parameters.) -/
theorem jobStop_carries_both_query_and_body :
    (jobStop "jid" false none false false).method = "STOP" ∧
    (jobStop "jid" false none false false).params
      = some [("save", Json.num 0), ("force", Json.num 0)] ∧
    (jobStop "jid" false none false false).data = some (Json.obj []) ∧
    (jobAdd "jid" (Json.obj [])).method = "PUT" ∧
    (jobAdd "jid" (Json.obj [])).params = some [("create", Json.num 1)] ∧
    (jobAdd "jid" (Json.obj [])).data = some (Json.obj []) :=
  ⟨rfl, rfl, rfl, rfl, rfl, rfl⟩

/-- C4 amended: the request carries the query payload exactly when the
call passes a `params` dict and a JSON body exactly when it passes a
`data` value — the two are independent of each other and of the verb. -/
theorem buildRequest_query_mirrors_params_body_mirrors_data
    (c : Codecs) (st : ClientState) (rs : RequestSpec) (addr : String × Nat) :
    (buildRequest c st rs addr).query = rs.params ∧
    (buildRequest c st rs addr).body.isSome = rs.data.isSome := by
  obtain ⟨ad, sec, un, pw, uid, tm⟩ := st
  obtain ⟨m, pa, ps, dt⟩ := rs
  cases un <;> cases pw <;> cases dt <;> simp [buildRequest]

/-- C6: for a hostname that the literal-IP test accepts, `setEndPoint`
installs exactly one candidate — the hostname with the explicit port
when given and the default port 8914 otherwise — and the DNS resolver
is never consulted (the result is the same for any two resolvers). -/
theorem setEndPoint_ip_literal_single_candidate_no_dns
    (isIPLiteral : String → Bool) (q q' : String → DnsResult)
    (st : ClientState) (h : String) (p : Option Nat)
    (hip : isIPLiteral h = true) :
    setEndPoint isIPLiteral q st (some h) p
      = Except.ok { st with addrs := [(h, p.getD 8914)] } ∧
    setEndPoint isIPLiteral q st (some h) p
      = setEndPoint isIPLiteral q' st (some h) p := by
  constructor
  · cases p <;> simp [setEndPoint, hip, DEFAULT_TCP_PORT]
  · cases p <;> simp [setEndPoint, hip]

/-- C6 witness: a concrete literal-IP endpoint with no explicit port
resolves to the single candidate `("10.0.0.1", 8914)` under any
resolver. -/
theorem setEndPoint_ip_literal_single_candidate_no_dns_witness :
    setEndPoint (fun s => s == "10.0.0.1") (fun _ => DnsResult.nxdomain)
        { addrs := [], secure := true, username := none, password := none,
          user_id := none, timeout := 5 } (some "10.0.0.1") none
      = Except.ok
          { addrs := [("10.0.0.1", 8914)], secure := true, username := none,
            password := none, user_id := none, timeout := 5 } ∧
    setEndPoint (fun s => s == "10.0.0.1") (fun _ => DnsResult.nxdomain)
        { addrs := [], secure := true, username := none, password := none,
          user_id := none, timeout := 5 } (some "10.0.0.1") none
      = setEndPoint (fun s => s == "10.0.0.1")
          (fun _ => DnsResult.failure "dns timeout")
          { addrs := [], secure := true, username := none, password := none,
            user_id := none, timeout := 5 } (some "10.0.0.1") none :=
  setEndPoint_ip_literal_single_candidate_no_dns
    (fun s => s == "10.0.0.1") (fun _ => DnsResult.nxdomain)
    (fun _ => DnsResult.failure "dns timeout")
    { addrs := [], secure := true, username := none, password := none,
      user_id := none, timeout := 5 } "10.0.0.1" none (by decide)

/-- C7: for a hostname that the literal-IP test rejects and whose SRV
lookup authoritatively reports `NXDOMAIN`, resolution falls back to the
single candidate `(hostname, explicit port or 8914)`. -/
theorem setEndPoint_nxdomain_fallback_single_candidate
    (isIPLiteral : String → Bool) (q : String → DnsResult)
    (st : ClientState) (h : String) (p : Option Nat)
    (hip : isIPLiteral h = false)
    (hq : q (srvName h) = DnsResult.nxdomain) :
    setEndPoint isIPLiteral q st (some h) p
      = Except.ok { st with addrs := [(h, p.getD 8914)] } := by
  cases p <;>
    simp [setEndPoint, _resolve, hip, hq, DEFAULT_TCP_PORT,
      Except.map]

/-- C7 witness: a concrete non-IP hostname whose SRV record is absent
resolves to the single candidate with the explicit port. -/
theorem setEndPoint_nxdomain_fallback_single_candidate_witness :
    setEndPoint (fun _ => false) (fun _ => DnsResult.nxdomain)
        { addrs := [], secure := true, username := none, password := none,
          user_id := none, timeout := 5 } (some "example.com") (some 443)
      = Except.ok
          { addrs := [("example.com", 443)], secure := true, username := none,
            password := none, user_id := none, timeout := 5 } :=
  setEndPoint_nxdomain_fallback_single_candidate
    (fun _ => false) (fun _ => DnsResult.nxdomain)
    { addrs := [], secure := true, username := none, password := none,
      user_id := none, timeout := 5 } "example.com" (some 443) rfl rfl

/-- C9: on a successful transport response, `_request` returns the
Python `None` unit value when the status is 204 and the JSON-parsed
body otherwise; the unit outcome is a different constructor from every
parsed-value outcome (in particular from an empty JSON object), and the
discriminator below separates it from every exception outcome. -/
theorem request_success_unit_or_parsed_body
    (c : Codecs) (choose : List (String × Nat) → String × Nat)
    (transport : BuiltRequest → TransportResult)
    (st : ClientState) (rs : RequestSpec) (resp : HttpResponse)
    (hs : transport (buildRequest c st rs (choose st.addrs))
      = TransportResult.success resp) :
    (resp.code = 204 → (_request c choose transport st rs).2
      = ReqResult.unit) ∧
    (∀ j, resp.code ≠ 204 → c.jsonLoads resp.body = some j →
      (_request c choose transport st rs).2 = ReqResult.value j) ∧
    (∀ j, ReqResult.unit ≠ ReqResult.value j) := by
  refine ⟨?_, ?_, ?_⟩
  · intro h204
    simp only [_request]
    rw [hs]
    simp [h204]
  · intro j hne hj
    simp only [_request]
    rw [hs]
    simp [hne, hj]
  · intro j hcontra
    exact ReqResult.noConfusion hcontra

/-- C9 witness: a concrete 204 response yields the unit result, and a
concrete 200 response with body parsed as the empty JSON object yields
that object as a value. -/
theorem request_success_unit_or_parsed_body_witness :
    (_request
        { jsonDumps := fun _ => "null", jsonLoads := fun _ => none,
          b64encode := fun s => s }
        (fun _ => ("h", 1))
        (fun _ => TransportResult.success
          { code := 204, headers := [], body := "" })
        { addrs := [("h", 1)], secure := false, username := none,
          password := none, user_id := none, timeout := 5 }
        { method := "DELETE", path := "package/p", params := none,
          data := none }).2
      = ReqResult.unit ∧
    (_request
        { jsonDumps := fun _ => "null",
          jsonLoads := fun _ => some (Json.obj []), b64encode := fun s => s }
        (fun _ => ("h", 1))
        (fun _ => TransportResult.success
          { code := 200, headers := [], body := "\x7b\x7d" })
        { addrs := [("h", 1)], secure := false, username := none,
          password := none, user_id := none, timeout := 5 }
        { method := "GET", path := "whoami", params := none,
          data := none }).2
      = ReqResult.value (Json.obj []) :=
  ⟨(request_success_unit_or_parsed_body
      { jsonDumps := fun _ => "null", jsonLoads := fun _ => none,
        b64encode := fun s => s }
      (fun _ => ("h", 1))
      (fun _ => TransportResult.success
        { code := 204, headers := [], body := "" })
      { addrs := [("h", 1)], secure := false, username := none,
        password := none, user_id := none, timeout := 5 }
      { method := "DELETE", path := "package/p", params := none,
        data := none }
      { code := 204, headers := [], body := "" } rfl).1 rfl,
   (request_success_unit_or_parsed_body
      { jsonDumps := fun _ => "null",
        jsonLoads := fun _ => some (Json.obj []), b64encode := fun s => s }
      (fun _ => ("h", 1))
      (fun _ => TransportResult.success
        { code := 200, headers := [], body := "\x7b\x7d" })
      { addrs := [("h", 1)], secure := false, username := none,
        password := none, user_id := none, timeout := 5 }
      { method := "GET", path := "whoami", params := none,
        data := none }
      { code := 200, headers := [], body := "\x7b\x7d" } rfl).2.1
      (Json.obj []) (by decide) rfl⟩

/-- C10: `setAuth` stores the given username and password; the cached
user id survives exactly when the username is unchanged (so a
password-only change keeps it) and is cleared when the username
differs; the endpoint list, TLS flag and timeout are untouched. -/
theorem setAuth_updates_credentials_and_clears_cache_iff_username_changes
    (st : ClientState) (u p : Option String) :
    (setAuth st u p).username = u ∧
    (setAuth st u p).password = p ∧
    (setAuth st u p).user_id
      = (if u = st.username then st.user_id else none) ∧
    (setAuth st u p).addrs = st.addrs ∧
    (setAuth st u p).secure = st.secure ∧
    (setAuth st u p).timeout = st.timeout := by
  by_cases h : u = st.username <;> simp [setAuth, h]

/-- C8: a successful response carrying the `X-VSC-User-ID` header makes
`_request` cache the token in the client state, and every subsequent
`jobList` call (with a valid format) on that state short-circuits to the
direct user-scoped `jobListAll` request — `GET job` with the cached id
as the `user` query parameter — instead of the `GET list_jobs`
redirection request. -/
theorem request_caches_user_id_and_jobList_short_circuits
    (c : Codecs) (choose : List (String × Nat) → String × Nat)
    (transport : BuiltRequest → TransportResult)
    (st : ClientState) (rs : RequestSpec) (resp : HttpResponse)
    (uid format : String) (historic : Bool)
    (hs : transport (buildRequest c st rs (choose st.addrs))
      = TransportResult.success resp)
    (huid : headerGet resp.headers "X-VSC-User-ID" = some uid)
    (hfmt : validJobFormat format) :
    (_request c choose transport st rs).1.user_id = some uid ∧
    jobListSpec (_request c choose transport st rs).1 format historic
      = jobListAllSpec format historic (some uid) ∧
    jobListAllSpec format historic (some uid)
      = Except.ok
          { method := "GET", path := "job",
            params := some
              [("format", Json.str format),
               ("historic", Json.num (if historic then 1 else 0)),
               ("user", Json.str uid)],
            data := none } := by
  have hst1 : (_request c choose transport st rs).1
      = { st with user_id := some uid } := by
    simp only [_request]
    rw [hs]
    simp only [huid]
    by_cases h204 : resp.code = 204
    · simp [h204]
    · cases hjl : c.jsonLoads resp.body <;> simp [h204, hjl]
  refine ⟨by rw [hst1], ?_, ?_⟩
  · rw [hst1]
    simp [jobListSpec, hfmt]
  · simp [jobListAllSpec, hfmt]

/-- C8 witness: a concrete successful response carrying
`X-VSC-User-ID: u123` caches the id and makes `jobList` issue the
direct `GET job` request with `user = u123`. -/
theorem request_caches_user_id_and_jobList_short_circuits_witness :
    (_request
        { jsonDumps := fun _ => "null",
          jsonLoads := fun _ => some (Json.obj []), b64encode := fun s => s }
        (fun _ => ("h", 1))
        (fun _ => TransportResult.success
          { code := 200, headers := [("X-VSC-User-ID", "u123")],
            body := "\x7b\x7d" })
        { addrs := [("h", 1)], secure := false, username := none,
          password := none, user_id := none, timeout := 5 }
        { method := "GET", path := "whoami", params := none,
          data := none }).1.user_id
      = some "u123" ∧
    jobListSpec
        (_request
          { jsonDumps := fun _ => "null",
            jsonLoads := fun _ => some (Json.obj []), b64encode := fun s => s }
          (fun _ => ("h", 1))
          (fun _ => TransportResult.success
            { code := 200, headers := [("X-VSC-User-ID", "u123")],
              body := "\x7b\x7d" })
          { addrs := [("h", 1)], secure := false, username := none,
            password := none, user_id := none, timeout := 5 }
          { method := "GET", path := "whoami", params := none,
            data := none }).1 "basic" false
      = Except.ok
          { method := "GET", path := "job",
            params := some
              [("format", Json.str "basic"), ("historic", Json.num 0),
               ("user", Json.str "u123")],
            data := none } := by
  have h := request_caches_user_id_and_jobList_short_circuits
    { jsonDumps := fun _ => "null",
      jsonLoads := fun _ => some (Json.obj []), b64encode := fun s => s }
    (fun _ => ("h", 1))
    (fun _ => TransportResult.success
      { code := 200, headers := [("X-VSC-User-ID", "u123")],
        body := "\x7b\x7d" })
    { addrs := [("h", 1)], secure := false, username := none,
      password := none, user_id := none, timeout := 5 }
    { method := "GET", path := "whoami", params := none, data := none }
    { code := 200, headers := [("X-VSC-User-ID", "u123")],
      body := "\x7b\x7d" }
    "u123" "basic" false rfl rfl (Or.inl rfl)
  exact ⟨h.1, h.2.1.trans h.2.2⟩

/-- C5 counterexample: the claim as stated is false — a 403 response
with the wrong content type is not always re-surfaced unchanged. Line
914 evaluates `int(headers.get('Content-Length', '0'))` before the
content-type check of line 916, so when the `Content-Length` header
value is not numeric the decoder raises an uncaught `ValueError`
instead of re-raising the original HTTP error. -/
theorem decode_403_wrong_content_type_bad_length_not_reraised :
    _decodeErrorResponse (fun _ => none)
        { code := 403,
          headers := [("Content-Type", "text/html"),
                      ("Content-Length", "abc")],
          body := "x" }
      = PyExn.valueError ∧
    isReRaisedOriginal
        { code := 403,
          headers := [("Content-Type", "text/html"),
                      ("Content-Length", "abc")],
          body := "x" }
        (_decodeErrorResponse (fun _ => none)
          { code := 403,
            headers := [("Content-Type", "text/html"),
                        ("Content-Length", "abc")],
            body := "x" })
      = false :=
  ⟨rfl, rfl⟩

/-- C5 amended: decoding a status-403 error response maps a well-formed
JSON body's `error_class` token `"bad_argument"` to `BadArgError` with
the body's message and `"access_denied"` to `NotAuthorizedError` with
the message; provided the `Content-Length` header value parses as an
integer (it is fed to `int()` before any other check), any other
`error_class` token, an unparseable body, a missing `error_class` or
`error_message` field, a wrong content type, a non-positive declared
length, or a declared/actual body-length mismatch re-surfaces the
original HTTP error unchanged; a non-numeric `Content-Length` value
instead raises `ValueError` from `int()`. -/
theorem decode_403_token_map_or_reraise
    (jl : String → Option Json) (e : HttpErrorResponse)
    (hcode : e.code = 403) :
    (∀ n ent em,
      pyInt (headerGetD e.headers "Content-Length" "0") = some n →
      headerGet e.headers "Content-Type" = some "application/json" →
      0 < n →
      ((pyRead e.body n.toNat).length : Int) = n →
      jl (pyRead e.body n.toNat) = some ent →
      jGet ent "error_class" = some (Json.str "bad_argument") →
      jGet ent "error_message" = some em →
      _decodeErrorResponse jl e = PyExn.badArgError em) ∧
    (∀ n ent em,
      pyInt (headerGetD e.headers "Content-Length" "0") = some n →
      headerGet e.headers "Content-Type" = some "application/json" →
      0 < n →
      ((pyRead e.body n.toNat).length : Int) = n →
      jl (pyRead e.body n.toNat) = some ent →
      jGet ent "error_class" = some (Json.str "access_denied") →
      jGet ent "error_message" = some em →
      _decodeErrorResponse jl e = PyExn.notAuthorizedError em) ∧
    (∀ n ent em s,
      pyInt (headerGetD e.headers "Content-Length" "0") = some n →
      headerGet e.headers "Content-Type" = some "application/json" →
      0 < n →
      ((pyRead e.body n.toNat).length : Int) = n →
      jl (pyRead e.body n.toNat) = some ent →
      jGet ent "error_class" = some (Json.str s) →
      jGet ent "error_message" = some em →
      s ≠ "access_denied" → s ≠ "bad_argument" →
      _decodeErrorResponse jl e = raiseHttp e) ∧
    (∀ n,
      pyInt (headerGetD e.headers "Content-Length" "0") = some n →
      headerGet e.headers "Content-Type" ≠ some "application/json" →
      _decodeErrorResponse jl e = raiseHttp e) ∧
    (∀ n,
      pyInt (headerGetD e.headers "Content-Length" "0") = some n →
      n ≤ 0 →
      _decodeErrorResponse jl e = raiseHttp e) ∧
    (∀ n,
      pyInt (headerGetD e.headers "Content-Length" "0") = some n →
      headerGet e.headers "Content-Type" = some "application/json" →
      0 < n →
      ((pyRead e.body n.toNat).length : Int) ≠ n →
      _decodeErrorResponse jl e = raiseHttp e) ∧
    (∀ n,
      pyInt (headerGetD e.headers "Content-Length" "0") = some n →
      headerGet e.headers "Content-Type" = some "application/json" →
      0 < n →
      ((pyRead e.body n.toNat).length : Int) = n →
      jl (pyRead e.body n.toNat) = none →
      _decodeErrorResponse jl e = raiseHttp e) ∧
    (∀ n ent,
      pyInt (headerGetD e.headers "Content-Length" "0") = some n →
      headerGet e.headers "Content-Type" = some "application/json" →
      0 < n →
      ((pyRead e.body n.toNat).length : Int) = n →
      jl (pyRead e.body n.toNat) = some ent →
      jGet ent "error_class" = none →
      _decodeErrorResponse jl e = raiseHttp e) ∧
    (∀ n ent ec,
      pyInt (headerGetD e.headers "Content-Length" "0") = some n →
      headerGet e.headers "Content-Type" = some "application/json" →
      0 < n →
      ((pyRead e.body n.toNat).length : Int) = n →
      jl (pyRead e.body n.toNat) = some ent →
      jGet ent "error_class" = some ec →
      jGet ent "error_message" = none →
      _decodeErrorResponse jl e = raiseHttp e) ∧
    (pyInt (headerGetD e.headers "Content-Length" "0") = none →
      _decodeErrorResponse jl e = PyExn.valueError) := by
  refine ⟨?_, ?_, ?_, ?_, ?_, ?_, ?_, ?_, ?_, ?_⟩
  · intro n ent em hn hct hpos hlen hjl hec hem
    simp [_decodeErrorResponse, hcode, hn, hct, not_le.mpr hpos, hlen, hjl,
      hec, hem]
  · intro n ent em hn hct hpos hlen hjl hec hem
    simp [_decodeErrorResponse, hcode, hn, hct, not_le.mpr hpos, hlen, hjl,
      hec, hem]
  · intro n ent em s hn hct hpos hlen hjl hec hem hs1 hs2
    simp [_decodeErrorResponse, hcode, hn, hct, not_le.mpr hpos, hlen, hjl,
      hec, hem, hs1, hs2]
  · intro n hn hctne
    simp [_decodeErrorResponse, hcode, hn, hctne]
  · intro n hn hn0
    simp [_decodeErrorResponse, hcode, hn, hn0]
  · intro n hn hct hpos hlenne
    simp [_decodeErrorResponse, hcode, hn, hct, not_le.mpr hpos, hlenne]
  · intro n hn hct hpos hlen hjlnone
    simp [_decodeErrorResponse, hcode, hn, hct, not_le.mpr hpos, hlen,
      hjlnone]
  · intro n ent hn hct hpos hlen hjl hecnone
    simp [_decodeErrorResponse, hcode, hn, hct, not_le.mpr hpos, hlen, hjl,
      hecnone]
  · intro n ent ec hn hct hpos hlen hjl hec hemnone
    simp [_decodeErrorResponse, hcode, hn, hct, not_le.mpr hpos, hlen, hjl,
      hec, hemnone]
  · intro hn
    simp [_decodeErrorResponse, hcode, hn]

/-- C5 witness: a concrete 403 response whose JSON body carries
`error_class = "bad_argument"`, `error_message = "x"` decodes to
`BadArgError (Json.str "x")`; the same response with the unrecognized
token `"quota_exceeded"` re-surfaces the original error; and a 403
response whose `Content-Length` header value is non-numeric raises
`ValueError`. -/
theorem decode_403_token_map_or_reraise_witness :
    _decodeErrorResponse
        (fun s => if s = "ab" then
          some (Json.obj [("error_class", Json.str "bad_argument"),
                          ("error_message", Json.str "x")]) else none)
        { code := 403,
          headers := [("Content-Type", "application/json"),
                      ("Content-Length", "2")],
          body := "ab" }
      = PyExn.badArgError (Json.str "x") ∧
    _decodeErrorResponse
        (fun s => if s = "ab" then
          some (Json.obj [("error_class", Json.str "quota_exceeded"),
                          ("error_message", Json.str "x")]) else none)
        { code := 403,
          headers := [("Content-Type", "application/json"),
                      ("Content-Length", "2")],
          body := "ab" }
      = raiseHttp
          { code := 403,
            headers := [("Content-Type", "application/json"),
                        ("Content-Length", "2")],
            body := "ab" } ∧
    _decodeErrorResponse (fun _ => none)
        { code := 403,
          headers := [("Content-Type", "application/json"),
                      ("Content-Length", "oops")],
          body := "ab" }
      = PyExn.valueError :=
  ⟨(decode_403_token_map_or_reraise
      (fun s => if s = "ab" then
        some (Json.obj [("error_class", Json.str "bad_argument"),
                        ("error_message", Json.str "x")]) else none)
      { code := 403,
        headers := [("Content-Type", "application/json"),
                    ("Content-Length", "2")],
        body := "ab" } rfl).1
      2 (Json.obj [("error_class", Json.str "bad_argument"),
                   ("error_message", Json.str "x")])
      (Json.str "x") rfl rfl (by decide) rfl rfl rfl rfl,
   ((decode_403_token_map_or_reraise
      (fun s => if s = "ab" then
        some (Json.obj [("error_class", Json.str "quota_exceeded"),
                        ("error_message", Json.str "x")]) else none)
      { code := 403,
        headers := [("Content-Type", "application/json"),
                    ("Content-Length", "2")],
        body := "ab" } rfl).2.2.1
      2 (Json.obj [("error_class", Json.str "quota_exceeded"),
                   ("error_message", Json.str "x")])
      (Json.str "x") "quota_exceeded" rfl rfl (by decide) rfl rfl rfl rfl
      (by decide) (by decide)),
   (decode_403_token_map_or_reraise (fun _ => none)
      { code := 403,
        headers := [("Content-Type", "application/json"),
                    ("Content-Length", "oops")],
        body := "ab" } rfl).2.2.2.2.2.2.2.2.2 rfl⟩

end VscApi
